import Mathlib

/-!
Verification of the realtime chat orchestrator in src/index.js.

The file shallowly embeds the program: outbound protocol messages become a
Lean inductive, the two send sites (initializeConversation and sendMessage)
become list-producing functions, the inbound WebSocket message handler
becomes a pure function from the parsed frame (and the next human input,
supplied by the blocking question call) to its observable effects (log
lines, prompt, outbound messages), and the whole session becomes a trace
over an arbitrary script of inbound frames and human inputs.
-/

namespace RealtimeChat

/-- One element of a content array, as in \x7b type: "input_text", text \x7d. -/
structure ContentPart where
  type : String
  text : String
deriving DecidableEq, Repr

/-- The item field of a conversation.item.create message. -/
structure MsgItem where
  type : String
  role : String
  content : List ContentPart
deriving DecidableEq, Repr

/-- The response field of a response.create message. -/
structure ResponseBody where
  modalities : List String
  instructions : String
deriving DecidableEq, Repr

/-- Outbound protocol messages sent on the WebSocket by src/index.js. -/
inductive OutMsg where
  | conversationItemCreate (item : MsgItem)
  | responseCreate (response : ResponseBody)
deriving DecidableEq, Repr

/-- The instructions template literal of initializeConversation
(src/index.js lines 62-86), transcribed character for character
(apostrophe written \x27, braces written \x7b and \x7d, newline \n). -/
def initInstructions : String :=
  "Based on the reply being generated send an appropriate animation and facialExpression based on the provided animations and expressions.\n" ++
  "        Also use a JSON structure for formatting the output composed of an array of items with each item composed of facialExpression, animation and a text.\n" ++
  "        If the generated reply exceeds 30 words split into multiple items\n" ++
  "        The different facial expressions are: \x27Neutral\x27, \x27Smile\x27, \x27Sad\x27, \x27Happy\x27, \x27Angry\x27, \x27Confused\x27, \x27Surprised\x27, \x27Disgusted\x27, \x27Fearful\x27, \x27Thoughtful\x27, \x27Skeptical\x27, \x27Tired\x27, \x27Relieved\x27,  \x27Annoyed\x27,\n" ++
  "        \x27Intrigued\x27, \x27Excited\x27, \x27Shy\x27, \x27Nervous\x27, \x27Disagreeing\x27, \x27Focused\x27.\n" ++
  "        The different animations are: \n" ++
  "        M_Talking_Variations_001: neutral talking\n" ++
  "        M_Talking_Variations_002: talking with hands\n" ++
  "        M_Talking_Variations_003: talking with hands\n" ++
  "        M_Talking_Variations_007: talking with hands\n" ++
  "        M_Talking_Variations_009: talking with hands\n" ++
  "        F_Talking_Variations_002: talking with hands\n" ++
  "        M_Standing_Expressions_004: talking and nodding head\n" ++
  "        M_Standing_Expressions_002: pointing with index in front\n" ++
  "        M_Standing_Expressions_001: waving gesture with one hand\n" ++
  "        M_Standing_Expressions_012: approving with thumbs up\n" ++
  "        M_Standing_Expressions_010: come to me gesture\n" ++
  "        M_Talking_Variations_005: talking and explaining\n" ++
  "        M_Talking_Variations_006 talking and explaining\n" ++
  "        F_Talking_Variations_002 talking opening arms\n" ++
  "        \n" ++
  "        STRICTLY FOLLOW JSON FORMAT.\n" ++
  "        LET REPLY GENERATED BE ALWAYS AN ARRAY OF JSON OBJECTS EVEN IF THERE IS ONLY A SINGLE ITEM.\n" ++
  "        SEND THE OUTPUT AS AN ARRAY OF JSON OBJECTS, DOUBLE QUOTES AROUND KEYS AND VALUES, HERE\x27S AN EXAMPLE:\n" ++
  "        [\x7b\x27animation\x27:\x27M_Standing_Expressions_001\x27,\x27facialExpression\x27:\x27Happy\x27, \x27text\x27: \x27Hello! How can I assist you today?\x27\x7d,\x7b\x27animation\x27:\x27M_Standing_Expressions_001\x27,\x27facialExpression\x27:\x27Happy\x27, \x27text\x27: \x27Hello! How can I assist you today?\x27\x7d,\x7b\x27animation\x27:\x27M_Standing_Expressions_001\x27,\x27facialExpression\x27:\x27Happy\x27, \x27text\x27: \x27Hello! How can I assist you today?\x27\x7d]"

/-- The instructions template literal of sendMessage (src/index.js lines
134-158), transcribed character for character with the same conventions. -/
def sendInstructions : String :=
  "Based on the reply being generated send an appropriate animation and facialExpression based on the provided animations and expressions.\n" ++
  "        Also use a JSON structure for formatting the output composed of an array of items with each item composed of facialExpression, animation and a text.\n" ++
  "        If the generated reply exceeds 30 words split into multiple items.\n" ++
  "        The different facial expressions are: \x27Neutral\x27, \x27Smile\x27, \x27Sad\x27, \x27Happy\x27, \x27Angry\x27, \x27Confused\x27, \x27Surprised\x27, \x27Disgusted\x27, \x27Fearful\x27, \x27Thoughtful\x27, \x27Skeptical\x27, \x27Tired\x27, \x27Relieved\x27,  \x27Annoyed\x27,\n" ++
  "        \x27Intrigued\x27, \x27Excited\x27, \x27Shy\x27, \x27Nervous\x27, \x27Disagreeing\x27, \x27Focused\x27.\n" ++
  "        The different animations are: \n" ++
  "        M_Talking_Variations_001: neutral talking\n" ++
  "        M_Talking_Variations_002: talking with hands\n" ++
  "        M_Talking_Variations_003: talking with hands\n" ++
  "        M_Talking_Variations_007: talking with hands\n" ++
  "        M_Talking_Variations_009: talking with hands\n" ++
  "        F_Talking_Variations_002: talking with hands\n" ++
  "        M_Standing_Expressions_004: talking and nodding head\n" ++
  "        M_Standing_Expressions_002: pointing with index in front\n" ++
  "        M_Standing_Expressions_001: waving gesture with one hand\n" ++
  "        M_Standing_Expressions_012: approving with thumbs up\n" ++
  "        M_Standing_Expressions_010: come to me gesture\n" ++
  "        M_Talking_Variations_005: talking and explaining\n" ++
  "        M_Talking_Variations_006 talking and explaining\n" ++
  "        F_Talking_Variations_002 talking opening arms\n" ++
  "        \n" ++
  "        STRICTLY FOLLOW JSON FORMAT.\n" ++
  "        LET REPLY GENERATED BE ALWAYS AN ARRAY OF JSON OBJECTS EVEN IF THERE IS ONLY A SINGLE ITEM\n" ++
  "        SEND THE OUTPUT AS AN ARRAY OF JSONS, DOUBLE QUOTES AROUND KEYS AND VALUES, HERE\x27S AN EXAMPLE:\n" ++
  "        [\x7b\x27animation\x27:\x27M_Standing_Expressions_001\x27,\x27facialExpression\x27:\x27Happy\x27, \x27text\x27: \x27Hello! How can I assist you today?\x27\x7d,\x7b\x27animation\x27:\x27M_Standing_Expressions_001\x27,\x27facialExpression\x27:\x27Happy\x27, \x27text\x27: \x27Hello! How can I assist you today?\x27\x7d,\x7b\x27animation\x27:\x27M_Standing_Expressions_001\x27,\x27facialExpression\x27:\x27Happy\x27, \x27text\x27: \x27Hello! How can I assist you today?\x27\x7d]"

/-- Embedding of initializeConversation (src/index.js lines 42-90): sends
the synthetic first turn, a conversation.item.create carrying the literal
text "Hello" followed by a response.create carrying the instruction
contract, in that order. -/
def initializeConversation : List OutMsg :=
  [ OutMsg.conversationItemCreate ⟨"message", "user", [⟨"input_text", "Hello"⟩]⟩,
    OutMsg.responseCreate ⟨["text"], initInstructions⟩ ]

/-- Embedding of sendMessage (src/index.js lines 119-162): sends a
conversation.item.create wrapping the user input followed by a
response.create carrying the instruction contract, in that order. -/
def sendMessage (userInput : String) : List OutMsg :=
  [ OutMsg.conversationItemCreate ⟨"message", "user", [⟨"input_text", userInput⟩]⟩,
    OutMsg.responseCreate ⟨["text"], sendInstructions⟩ ]

/-- One element of parsedMessage.response.output, keeping only the content
field the handler reads (src/index.js line 106); the field is only logged,
so its JSON value is abstracted to an optional string. -/
structure RespOutputItem where
  content : Option String
deriving DecidableEq, Repr

/-- The response field of a parsed inbound message, keeping the status and
output fields the handler reads; a missing field is none. -/
structure RespField where
  status : Option String
  output : List RespOutputItem
deriving DecidableEq, Repr

/-- A successfully parsed inbound JSON message, keeping the fields the
handler inspects via optional chaining; a missing field is none. -/
structure ParsedMessage where
  type : Option String
  response : Option RespField
deriving DecidableEq, Repr

/-- Embedding of parsedMessage?.response?.output?.[0]?.content
(src/index.js line 106). -/
def receivedContent (m : ParsedMessage) : Option String :=
  ((m.response.bind fun r => r.output.head?).bind fun o => o.content)

/-- Console output produced by the inbound handler: the unconditional print
of the parsed message, the turn-failure notice, and the received-message
line printed on response.done. -/
inductive LogLine where
  | printed (m : ParsedMessage)
  | somethingWentWrong
  | receivedMessage (c : Option String)
deriving DecidableEq, Repr

/-- Observable effects of one activation of the inbound message handler:
log lines in order, the prompt shown to the human (none when the handler
does not ask for input), and the outbound messages it sends. -/
structure HandlerResult where
  logs : List LogLine
  prompt : Option String
  sent : List OutMsg
deriving DecidableEq, Repr

/-- Embedding of the body of the message callback in handleIncomingMessages
(src/index.js lines 97-111) after a successful JSON.parse. The two if
statements are independent (not chained with else). nextInput is the string
the blocking question call returns when the handler prompts. -/
def handleParsed (nextInput : String) (m : ParsedMessage) : HandlerResult :=
  let logs := [LogLine.printed m]
  let logs := if (m.response.bind fun r => r.status) = some "failed" then
    logs ++ [LogLine.somethingWentWrong] else logs
  if m.type = some "response.done" then
    ⟨logs ++ [LogLine.receivedMessage (receivedContent m)],
      some "Your message: ", sendMessage nextInput⟩
  else
    ⟨logs, none, []⟩

/-- Exceptions the program can raise: the uncaught JS SyntaxError from
JSON.parse on an invalid frame, and the ReferenceError from evaluating an
unbound identifier. -/
inductive JsError where
  | jsonParseError
  | referenceError (name : String)
deriving DecidableEq, Repr

/-- Embedding of the full message callback (src/index.js line 97-111):
the raw frame is modelled by its JSON.parse outcome, none meaning the
payload is not valid JSON; in that case JSON.parse throws and the callback
terminates exceptionally, since no guard surrounds it. -/
def handleIncomingMessage (nextInput : String) (frame : Option ParsedMessage) :
    Except JsError HandlerResult :=
  match frame with
  | none => Except.error JsError.jsonParseError
  | some m => Except.ok (handleParsed nextInput m)

/-- One observable event of a session trace: an outbound protocol message
or an inbound parsed frame. -/
inductive TraceEv where
  | outbound (m : OutMsg)
  | inbound (m : ParsedMessage)
deriving DecidableEq, Repr

/-- Trace of processing a script of inbound frames in arrival order, with
inputs the queue of human answers to successive prompts: each frame is
recorded, then whatever the handler sends for it, a prompt consuming the
next queued input when the handler asks for one. -/
def stepFrames : List String → List ParsedMessage → List TraceEv
  | _, [] => []
  | inputs, f :: fs =>
    let r := handleParsed (inputs.headD "") f
    (TraceEv.inbound f :: r.sent.map TraceEv.outbound) ++
      stepFrames (if r.prompt.isSome then inputs.tail else inputs) fs

/-- Full session trace: the initial synthetic turn sent by
initializeConversation, then the event-driven processing of the inbound
frames. -/
def sessionTrace (inputs : List String) (frames : List ParsedMessage) : List TraceEv :=
  initializeConversation.map TraceEv.outbound ++ stepFrames inputs frames

/-- A trace event is a turn trigger when it is an outbound response.create
message; each turn sends exactly one. -/
def isTrigger : TraceEv → Bool
  | TraceEv.outbound (OutMsg.responseCreate _) => true
  | _ => false

/-- A trace event is a terminal event when it is an inbound frame whose
type field equals response.done. -/
def isDone : TraceEv → Bool
  | TraceEv.inbound m => m.type = some "response.done"
  | _ => false

/-- Number of turn triggers sent in a trace. -/
def triggerCount (tr : List TraceEv) : Nat := (tr.filter isTrigger).length

/-- Number of terminal events observed in a trace. -/
def doneCount (tr : List TraceEv) : Nat := (tr.filter isDone).length

/-- One decoded reply segment, the presentation-ready record of spec §3. -/
structure ReplySegment where
  facialExpression : String
  animation : String
  text : String
deriving DecidableEq, Repr

/-- One element of the model reply array as parsed JSON, each of the three
required fields optional since the model may omit it. -/
structure RawSegment where
  facialExpression : Option String
  animation : Option String
  text : Option String
deriving DecidableEq, Repr

/-- Modelled from the spec: the Reply Decoder of §4.5 is not among the
source files (src/ holds only the orchestrator variant); its fallback
segment carries the raw text with a neutral expression and animation, here
the Neutral expression and the animation the contract glosses as neutral
talking. -/
def fallbackSegment (rawText : String) : ReplySegment :=
  ⟨"Neutral", "M_Talking_Variations_001", rawText⟩

/-- Modelled from the spec: validation of one parsed element of the reply
array, requiring presence of facialExpression, animation and text; unknown
vocabulary values pass through (§4.5). -/
def validateSegment (e : RawSegment) : Option ReplySegment :=
  match e.facialExpression, e.animation, e.text with
  | some f, some a, some t => some ⟨f, a, t⟩
  | _, _, _ => none

/-- Modelled from the spec: validation of the whole reply array, failing
when any element misses a required field (§4.5 strict on aggregate shape). -/
def validateAll : List RawSegment → Option (List ReplySegment)
  | [] => some []
  | e :: es =>
    match validateSegment e, validateAll es with
    | some s, some ss => some (s :: ss)
    | _, _ => none

/-- Modelled from the spec: decode of §4.5. The JSON.parse outcome of the
raw text is modelled by the first argument, none meaning the text is not a
JSON array (invalid JSON, wrong shape, empty string); on parse failure,
validation failure, or an empty array the decoder returns the single
fallback segment so a fault never propagates to the caller. -/
def decode (parsed : Option (List RawSegment)) (rawText : String) : List ReplySegment :=
  match parsed with
  | none => [fallbackSegment rawText]
  | some elems =>
    match validateAll elems with
    | none => [fallbackSegment rawText]
    | some [] => [fallbackSegment rawText]
    | some (s :: ss) => s :: ss

/-- Event-handler registrations a run can place on the live WebSocket.
onOpen and onConnError are registered inside connectToOpenAPI (src/index.js
lines 24-32), onMessage inside handleIncomingMessages (line 97); onClose is
registered nowhere in src/index.js; onPostError is the handler the body of
handleError would register if it ran to completion (line 165). -/
inductive HandlerTag where
  | onOpen
  | onConnError
  | onMessage
  | onClose
  | onPostError
deriving DecidableEq, Repr

/-- Identifiers bound at module scope of src/index.js: the three imports
and the six const declarations. The identifier ws is not among them; it is
bound only locally inside connectToOpenAPI and inside the try block of
run. -/
def moduleScopeNames : List String :=
  ["dotenv", "WebSocket", "question", "openAIKey", "url",
   "connectToOpenAPI", "initializeConversation", "handleIncomingMessages",
   "sendMessage", "handleError", "run"]

/-- Embedding of handleError (src/index.js lines 164-168): its body
evaluates the free identifier ws, which JS resolves against the enclosing
(module) scope since handleError takes no parameter; when that lookup
fails the evaluation throws a ReferenceError before any handler is
registered, otherwise it would register the error handler. -/
def handleError (scope : List String) : Except JsError (List HandlerTag) :=
  if "ws" ∈ scope then Except.ok [HandlerTag.onPostError]
  else Except.error (JsError.referenceError "ws")

/-- Observable outcome of one execution of run: handlers left registered on
the socket in registration order, messages sent, console error lines, and
the exception the catch block swallowed, if any. -/
structure RunOutcome where
  handlers : List HandlerTag
  sent : List OutMsg
  errLogs : List String
  caught : Option JsError
deriving DecidableEq, Repr

/-- Embedding of run (src/index.js lines 170-179) on the path where the
connection opens: connectToOpenAPI resolves with the open and error
handlers it registered still attached, initializeConversation sends the
first turn, handleIncomingMessages registers the message handler, then
handleError is called; if it throws, the catch block logs
"Failed to run the chatbot:" with the exception and the handlers already
registered remain active. -/
def run : RunOutcome :=
  let handlersAfterConnect := [HandlerTag.onOpen, HandlerTag.onConnError]
  let sent := initializeConversation
  let handlersAfterMsg := handlersAfterConnect ++ [HandlerTag.onMessage]
  match handleError moduleScopeNames with
  | Except.ok hs => ⟨handlersAfterMsg ++ hs, sent, [], none⟩
  | Except.error e => ⟨handlersAfterMsg, sent, ["Failed to run the chatbot:"], some e⟩

/-- Instructions string carried by the first response.create message of an
outbound batch, if any: the observable contract text of a turn. -/
def instructionsOf (msgs : List OutMsg) : Option String :=
  match msgs.filterMap (fun m => match m with
    | OutMsg.responseCreate r => some r.instructions
    | _ => none) with
  | [] => none
  | i :: _ => some i

/-- Balance invariant: in every prefix of the trace, the number of turn
triggers sent exceeds the number of terminal events observed by at most k. -/
def Bal (k : Nat) (l : List TraceEv) : Prop :=
  ∀ n, triggerCount (l.take n) ≤ k + doneCount (l.take n)

theorem Bal.nil (k : Nat) : Bal k [] := by
  intro n
  simp [triggerCount, doneCount]

theorem Bal.consNeutral {k : Nat} {x : TraceEv} {l : List TraceEv}
    (hT : isTrigger x = false) (hD : isDone x = false)
    (h : Bal k l) : Bal k (x :: l) := by
  intro n
  cases n with
  | zero => simp [triggerCount, doneCount]
  | succ n =>
    simp only [List.take_succ_cons, triggerCount, doneCount, List.filter_cons, hT, hD]
    simpa [triggerCount, doneCount] using h n

theorem Bal.consTrigger {k : Nat} {x : TraceEv} {l : List TraceEv}
    (hT : isTrigger x = true) (hD : isDone x = false)
    (h : Bal k l) : Bal (k + 1) (x :: l) := by
  intro n
  cases n with
  | zero => simp [triggerCount, doneCount]
  | succ n =>
    simp only [List.take_succ_cons, triggerCount, doneCount, List.filter_cons, hT, hD]
    have := h n
    simp only [triggerCount, doneCount] at this
    simp
    omega

theorem Bal.consDone {k : Nat} {x : TraceEv} {l : List TraceEv}
    (hT : isTrigger x = false) (hD : isDone x = true)
    (h : Bal (k + 1) l) : Bal k (x :: l) := by
  intro n
  cases n with
  | zero => simp [triggerCount, doneCount]
  | succ n =>
    simp only [List.take_succ_cons, triggerCount, doneCount, List.filter_cons, hT, hD]
    have := h n
    simp only [triggerCount, doneCount] at this
    simp
    omega

theorem stepFrames_bal : ∀ (frames : List ParsedMessage) (inputs : List String),
    Bal 0 (stepFrames inputs frames) := by
  intro frames
  induction frames with
  | nil => intro inputs; simpa [stepFrames] using Bal.nil 0
  | cons f fs ih =>
    intro inputs
    by_cases hm : f.type = some "response.done"
    · have hstep : stepFrames inputs (f :: fs) =
          TraceEv.inbound f ::
          TraceEv.outbound (OutMsg.conversationItemCreate
            ⟨"message", "user", [⟨"input_text", inputs.headD ""⟩]⟩) ::
          TraceEv.outbound (OutMsg.responseCreate ⟨["text"], sendInstructions⟩) ::
          stepFrames inputs.tail fs := by
        simp [stepFrames, handleParsed, hm, sendMessage]
      rw [hstep]
      exact Bal.consDone rfl (by simp [isDone, hm])
        (Bal.consNeutral rfl rfl (Bal.consTrigger rfl rfl (ih inputs.tail)))
    · have hstep : stepFrames inputs (f :: fs) =
          TraceEv.inbound f :: stepFrames inputs fs := by
        simp [stepFrames, handleParsed, hm]
      rw [hstep]
      exact Bal.consNeutral rfl (by simp [isDone, hm]) (ih inputs)

theorem sessionTrace_bal (inputs : List String) (frames : List ParsedMessage) :
    Bal 1 (sessionTrace inputs frames) := by
  have h : sessionTrace inputs frames =
      TraceEv.outbound (OutMsg.conversationItemCreate
        ⟨"message", "user", [⟨"input_text", "Hello"⟩]⟩) ::
      TraceEv.outbound (OutMsg.responseCreate ⟨["text"], initInstructions⟩) ::
      stepFrames inputs frames := by
    simp [sessionTrace, initializeConversation]
  rw [h]
  exact Bal.consNeutral rfl rfl (Bal.consTrigger rfl rfl (stepFrames_bal frames inputs))

/-- C1: for every script of human inputs and inbound frames, every prefix
of the session trace contains at most one more turn trigger than terminal
events with type response.done: after the initial turn, a new content plus
trigger pair is sent only from the response.done branch of the inbound
handler, so at most one turn is outstanding at any time. -/
theorem single_flight_invariant (inputs : List String)
    (frames : List ParsedMessage) (n : Nat) :
    triggerCount ((sessionTrace inputs frames).take n) ≤
      1 + doneCount ((sessionTrace inputs frames).take n) :=
  sessionTrace_bal inputs frames n

set_option maxRecDepth 10000

/-- Helper: the two instruction template literals are distinct strings. -/
theorem instructions_strings_differ : initInstructions ≠ sendInstructions := by
  decide

/-- Helper: aggregate validation fails whenever some element of the parsed
array misses a required field. -/
theorem validateAll_eq_none_of_mem {elems : List RawSegment} {e : RawSegment}
    (he : e ∈ elems) (hv : validateSegment e = none) : validateAll elems = none := by
  induction elems with
  | nil => cases he
  | cons a as ih =>
    cases he with
    | head =>
      simp only [validateAll, hv]
    | tail _ hmem =>
      have h2 := ih hmem
      simp only [validateAll, h2]
      cases validateSegment a <;> rfl

/-- C2: every turn produces exactly the two-message pair, a
conversation.item.create content message followed by a response.create
trigger message: the initial synthetic turn is exactly that pair around the
literal text Hello, every user turn is exactly that pair around the user
input, and the inbound handler never sends anything other than the empty
batch or one such pair. -/
theorem message_pairing :
    initializeConversation =
      [OutMsg.conversationItemCreate ⟨"message", "user", [⟨"input_text", "Hello"⟩]⟩,
       OutMsg.responseCreate ⟨["text"], initInstructions⟩] ∧
    (∀ u : String, sendMessage u =
      [OutMsg.conversationItemCreate ⟨"message", "user", [⟨"input_text", u⟩]⟩,
       OutMsg.responseCreate ⟨["text"], sendInstructions⟩]) ∧
    (∀ (input : String) (m : ParsedMessage),
      (handleParsed input m).sent = [] ∨ (handleParsed input m).sent = sendMessage input) := by
  refine ⟨rfl, fun u => rfl, fun input m => ?_⟩
  by_cases hm : m.type = some "response.done" <;> simp [handleParsed, hm]

/-- C3: the inbound handler always prints the parsed message first, logs
the failure notice exactly when response.status equals failed, and on type
response.done prompts with Your message: and sends the next turn around the
reply text read from response.output[0].content; on any other type it sends
nothing, prompts nothing, and logs no received-message line. -/
theorem handler_reaction_cases (input : String) (m : ParsedMessage) :
    (handleParsed input m).logs.head? = some (LogLine.printed m) ∧
    ((m.response.bind fun r => r.status) = some "failed" ↔
      LogLine.somethingWentWrong ∈ (handleParsed input m).logs) ∧
    (m.type = some "response.done" →
      (handleParsed input m).prompt = some "Your message: " ∧
      (handleParsed input m).sent = sendMessage input ∧
      LogLine.receivedMessage (receivedContent m) ∈ (handleParsed input m).logs) ∧
    (m.type ≠ some "response.done" →
      (handleParsed input m).sent = [] ∧ (handleParsed input m).prompt = none ∧
      ∀ c, LogLine.receivedMessage c ∉ (handleParsed input m).logs) := by
  by_cases hf : (m.response.bind fun r => r.status) = some "failed" <;>
    by_cases hm : m.type = some "response.done" <;>
    simp [handleParsed, hf, hm]

/-- Witness for C3 at concrete inbound messages: a response.done frame
prompts and sends the next turn, any other frame sends nothing. -/
theorem handler_reaction_cases_witness :
    (handleParsed "next" ⟨some "response.done", none⟩).sent = sendMessage "next" ∧
    (handleParsed "next" ⟨some "response.done", none⟩).prompt = some "Your message: " ∧
    (handleParsed "next" ⟨some "session.created", none⟩).sent = [] :=
  ⟨((handler_reaction_cases "next" ⟨some "response.done", none⟩).2.2.1 rfl).2.1,
   ((handler_reaction_cases "next" ⟨some "response.done", none⟩).2.2.1 rfl).1,
   ((handler_reaction_cases "next" ⟨some "session.created", none⟩).2.2.2 (by decide)).1⟩

/-- C4: the decode operation is total and never returns an empty sequence;
on a parse failure it returns the single fallback segment carrying the raw
text, and likewise when any element of a parsed array misses a required
field. -/
theorem decoder_totality (parsed : Option (List RawSegment)) (raw : String) :
    decode parsed raw ≠ [] ∧
    decode none raw = [fallbackSegment raw] ∧
    (∀ (elems : List RawSegment) (e : RawSegment), e ∈ elems →
      validateSegment e = none → decode (some elems) raw = [fallbackSegment raw]) := by
  refine ⟨?_, rfl, fun elems e he hv => ?_⟩
  · cases parsed with
    | none => simp [decode]
    | some elems =>
      cases hva : validateAll elems with
      | none => simp [decode, hva]
      | some l =>
        cases l with
        | nil => simp [decode, hva]
        | cons s ss => simp [decode, hva]
  · simp [decode, validateAll_eq_none_of_mem he hv]

/-- Witness for C4: an unparseable reply falls back to its raw text, and a
parsed array whose element misses the animation field falls back too. -/
theorem decoder_totality_witness :
    decode none "not json" = [fallbackSegment "not json"] ∧
    decode (some [⟨some "Happy", none, some "hi"⟩]) "raw" = [fallbackSegment "raw"] :=
  ⟨(decoder_totality none "not json").2.1,
   (decoder_totality (some [⟨some "Happy", none, some "hi"⟩]) "raw").2.2
     [⟨some "Happy", none, some "hi"⟩] ⟨some "Happy", none, some "hi"⟩ (by simp) rfl⟩

/-- C5 counterexample: the instructions string of the initial turn's
response.create is not character-for-character equal to the one sent on
subsequent turns; they differ in a sentence-final period, a final period
after ITEM, and ARRAY OF JSON OBJECTS against ARRAY OF JSONS. -/
theorem contract_not_verbatim :
    instructionsOf initializeConversation ≠ instructionsOf (sendMessage "Hello") := by
  intro h
  have h1 : instructionsOf initializeConversation = some initInstructions := rfl
  have h2 : instructionsOf (sendMessage "Hello") = some sendInstructions := rfl
  rw [h1, h2] at h
  exact instructions_strings_differ (Option.some.inj h)

/-- C5 amended: an instructions string carrying the structured-output
contract is delivered on every turn's response.create message, but the
initial turn's string and the subsequent turns' string are two near-equal
variants, not character-for-character equal. -/
theorem contract_delivered_every_turn :
    instructionsOf initializeConversation = some initInstructions ∧
    (∀ u : String, instructionsOf (sendMessage u) = some sendInstructions) ∧
    initInstructions ≠ sendInstructions :=
  ⟨rfl, fun _ => rfl, instructions_strings_differ⟩

/-- C6: on an inbound event whose response.status equals failed the handler
logs the failure notice, and when that event is not the terminal
response.done event it sends no outbound message and shows no prompt. -/
theorem turn_failure_nonfatal (input : String) (m : ParsedMessage)
    (hf : (m.response.bind fun r => r.status) = some "failed") :
    LogLine.somethingWentWrong ∈ (handleParsed input m).logs ∧
    (m.type ≠ some "response.done" →
      (handleParsed input m).sent = [] ∧ (handleParsed input m).prompt = none) := by
  by_cases hm : m.type = some "response.done" <;> simp [handleParsed, hf, hm]

/-- Witness for C6 at a concrete failed non-terminal event. -/
theorem turn_failure_nonfatal_witness :
    LogLine.somethingWentWrong ∈
      (handleParsed "x" ⟨some "response.output_item.done", some ⟨some "failed", []⟩⟩).logs ∧
    (handleParsed "x" ⟨some "response.output_item.done", some ⟨some "failed", []⟩⟩).sent = [] ∧
    (handleParsed "x" ⟨some "response.output_item.done", some ⟨some "failed", []⟩⟩).prompt = none := by
  have h := turn_failure_nonfatal "x"
    ⟨some "response.output_item.done", some ⟨some "failed", []⟩⟩ rfl
  exact ⟨h.1, (h.2 (by decide)).1, (h.2 (by decide)).2⟩

/-- C7 evidence: no close handler is registered anywhere in the program,
and because the identifier ws is unbound at module scope handleError throws
before registering its error handler, so after a completed run the socket
carries neither a close handler nor the post-connection error handler. -/
theorem transport_close_unhandled :
    (run.handlers.contains HandlerTag.onClose) = false ∧
    (run.handlers.contains HandlerTag.onPostError) = false ∧
    (moduleScopeNames.contains "ws") = false ∧
    handleError moduleScopeNames = Except.error (JsError.referenceError "ws") :=
  ⟨by decide, by decide, by decide, by simp [handleError, moduleScopeNames]⟩

/-- C8: the outbound turn content message wraps the user's literal text
unmodified: it is a conversation.item.create with role user whose content
array is exactly one input_text part holding the input string. -/
theorem turn_content_wraps_user_text (u : String) :
    (sendMessage u).head? = some (OutMsg.conversationItemCreate
      ⟨"message", "user", [⟨"input_text", u⟩]⟩) := rfl

/-- C9: handleError evaluates the unbound identifier ws and throws a
ReferenceError; run catches it and logs Failed to run the chatbot:, while
the open, connection-error and message handlers registered earlier remain
the only handlers on the live socket. -/
theorem handleError_reference_error :
    handleError moduleScopeNames = Except.error (JsError.referenceError "ws") ∧
    run.caught = some (JsError.referenceError "ws") ∧
    run.errLogs = ["Failed to run the chatbot:"] ∧
    run.handlers = [HandlerTag.onOpen, HandlerTag.onConnError, HandlerTag.onMessage] ∧
    run.sent = initializeConversation := by
  refine ⟨by simp [handleError, moduleScopeNames], ?_, ?_, ?_, ?_⟩ <;>
    simp [run, handleError, moduleScopeNames]

/-- C10: the message callback applies JSON.parse with no guard: on a frame
whose payload is not valid JSON it terminates with an uncaught SyntaxError,
and on every successfully parsed frame it returns the handler result. -/
theorem handler_requires_valid_json (input : String) :
    handleIncomingMessage input none = Except.error JsError.jsonParseError ∧
    ∀ m : ParsedMessage, handleIncomingMessage input (some m) =
      Except.ok (handleParsed input m) :=
  ⟨rfl, fun _ => rfl⟩

end RealtimeChat
